import Mathlib

/-!
Verification of the notification core of the rental-management backend.

The embedding below translates, function by function, the JavaScript of
`backend/src/services/notificationService.js` (three coexisting revisions,
called v1 / v2 / v6 here, in the order they appear in the repository),
`backend/src/utils/notificationTemplete.js` (the named revision and the
Twilio-template revision), and the PDF/upload glue of
`backend/src/controllers/billController.js`.

JavaScript-specific conventions used throughout:
* an optional / possibly-absent value is an `Option`;
* JS truthiness on strings (`""` and absent are falsy) is `strTruthy`;
* `a || b` on strings is `jsOrS`;
* a promise that can reject is an `Except String` value;
* the single-threaded event loop is modelled by a small-step transition
  relation whose atomic steps are the synchronous segments of the code
  between `await` points.
-/

namespace RentalNotify

/-- JS truthiness of an optional string: `null`/`undefined` and `""` are falsy. -/
def strTruthy : Option String → Bool
  | none => false
  | some s => s ≠ ""

/-- JS `a || b` for an optional string `a` and default `b`. -/
def jsOrS (a : Option String) (b : String) : String :=
  match a with
  | some s => if s = "" then b else s
  | none => b

/-- JS `a || b` where both sides are optional strings (used for chained `||`). -/
def jsOrOpt (a b : Option String) : Option String :=
  match a with
  | some s => if s = "" then b else some s
  | none => b

/-- ASCII lowercasing, modelling `toLowerCase()` on the ASCII strings the code
compares (status values, URL schemes). -/
def asciiLower (s : String) : String :=
  String.mk (s.data.map Char.toLower)

/-- Whether `pre` is a leading piece of `s` (modelling `String.prototype.startsWith`). -/
def strStarts (s pre : String) : Bool :=
  pre.data.isPrefixOf s.data

/-- Whitespace for `String.prototype.trim` (ASCII whitespace suffices for the
phone strings involved). -/
def isSpaceChar (c : Char) : Bool :=
  c = ' ' ∨ c = '\t' ∨ c = '\n' ∨ c = '\r'

/-- `s.trim()`: strip leading and trailing whitespace. -/
def jsTrim (s : String) : String :=
  String.mk (((s.data.dropWhile isSpaceChar).reverse.dropWhile isSpaceChar).reverse)

/- ----------------------------------------------------------------
   Email queue items and `_removePendingEmailsForBill`
   (notificationService.js, all three revisions; the v1 revision of
   `_normalizeBillId` reads `b._id`, then `b.bill._id`; the filter in
   `_removePendingEmailsForBill` additionally falls back to `item.billId`).
   ---------------------------------------------------------------- -/

/-- The `bill` field stored on a queue item: either a populated bill object
(with `_id`) or a wrapper `{ bill: {...} }` (with `bill._id`). -/
structure BillRef where
  id : Option String
  nestedId : Option String
  deriving Repr, DecidableEq

/-- One entry of `emailQueue`: `{ bill, pdfPath, resolve, reject, subject, message }`.
The resolve/reject callbacks are represented by `tag`, a unique identity for the
item's deferred result; `subject`/`message`/`pdfPath` are payload. -/
structure QueueItem where
  bill : Option BillRef
  billId : Option String
  pdfPath : Option String
  subject : Option String
  message : Option String
  tag : Nat
  deriving Repr, DecidableEq

/-- `_normalizeBillId(b)` of notificationService v1:
`b?._id ? String(b._id) : b?.bill?._id ? String(b.bill._id) : null`. -/
def normalizeBillId : Option BillRef → Option String
  | none => none
  | some b =>
    if strTruthy b.id then b.id
    else if strTruthy b.nestedId then b.nestedId
    else none

/-- The bill id a queue item is filtered by:
`_normalizeBillId(item.bill) || (item.billId ? String(item.billId) : null)`. -/
def qItemBillId (it : QueueItem) : Option String :=
  match normalizeBillId it.bill with
  | some s => if s = "" then (if strTruthy it.billId then it.billId else none) else some s
  | none => if strTruthy it.billId then it.billId else none

/-- `_removePendingEmailsForBill(billId)`: keeps exactly the queue items whose
normalized id differs from the target (`qId !== idStr`). -/
def removePendingEmailsForBill (billId : String) (q : List QueueItem) : List QueueItem :=
  q.filter (fun item => qItemBillId item ≠ some billId)

/-- The queue items of `q` associated with the (optional) bill id `oid`. -/
def itemsFor (oid : Option String) (q : List QueueItem) : List QueueItem :=
  q.filter (fun item => qItemBillId item = oid)

/- ----------------------------------------------------------------
   The email dispatch loop as a transition system.

   `sendBillEmail` pushes an item and schedules `processEmailQueue`;
   `processEmailQueue` runs synchronously up to the `await` of the actual
   send: it checks `emailProcessing`/emptiness, sets the flag and shifts the
   head (step `beginSend`); when the awaited send settles it resolves or
   rejects the item's deferred result and clears the flag (step `settle`).
   `_removePendingEmailsForBill` filters the queue (step `cancel`). The JS
   runtime is single-threaded, so each synchronous segment is one atomic
   step and steps interleave arbitrarily.

   Ghost fields record the observable history: `enqLog` the enqueue order,
   `beginLog` the order in which sends began, `settled` the settled
   deferred results (item paired with success flag).
   ---------------------------------------------------------------- -/

/-- Process-wide state of the email dispatch queue, plus ghost history. -/
structure EmailState where
  emailQueue : List QueueItem
  emailProcessing : Bool
  inFlight : Option QueueItem
  enqLog : List QueueItem
  beginLog : List QueueItem
  settled : List (QueueItem × Bool)

/-- One atomic event-loop step of the email queue code. -/
inductive Step : EmailState → EmailState → Prop
  /-- `sendBillEmail`: `emailQueue.push(item)`. -/
  | enqueue {s : EmailState} (it : QueueItem) :
      Step s { s with emailQueue := s.emailQueue ++ [it], enqLog := s.enqLog ++ [it] }
  /-- Synchronous head of `processEmailQueue`: the guard
  `if (emailProcessing || emailQueue.length === 0) return` passes,
  `emailProcessing = true`, `emailQueue.shift()`, and the send is awaited. -/
  | beginSend {s : EmailState} (it : QueueItem) (rest : List QueueItem) :
      s.emailProcessing = false → s.emailQueue = it :: rest →
      Step s { s with emailQueue := rest, emailProcessing := true, inFlight := some it, beginLog := s.beginLog ++ [it] }
  /-- Resumption after the awaited send: `resolve()`/`reject(err)` on this
  item only, then `emailProcessing = false`. `ok` is the send outcome. -/
  | settle {s : EmailState} (it : QueueItem) (ok : Bool) :
      s.inFlight = some it →
      Step s { s with emailProcessing := false, inFlight := none, settled := s.settled ++ [(it, ok)] }
  /-- `_removePendingEmailsForBill(billId)` from a lifecycle caller. -/
  | cancel {s : EmailState} (billId : String) :
      Step s { s with emailQueue := removePendingEmailsForBill billId s.emailQueue }

/-- Initial module state: `let emailQueue = []; let emailProcessing = false;`. -/
def initState : EmailState :=
  { emailQueue := [], emailProcessing := false, inFlight := none,
    enqLog := [], beginLog := [], settled := [] }

/-- States reachable from the initial module state. -/
def Reachable (s : EmailState) : Prop :=
  Relation.ReflTransGen Step initState s

/-- Inductive invariant of the email queue. -/
def QueueInv (s : EmailState) : Prop :=
  (s.emailProcessing = true ↔ s.inFlight.isSome) ∧
  (s.beginLog ++ s.emailQueue).Sublist s.enqLog ∧
  (s.beginLog.length = s.settled.length + (if s.inFlight.isSome then 1 else 0)) ∧
  (∀ it, s.inFlight = some it → s.beginLog.getLast? = some it)

theorem queueInv_init : QueueInv initState := by
  refine ⟨by simp [initState], by simp [initState], by simp [initState], ?_⟩
  intro it h
  simp [initState] at h

theorem queueInv_step {s s' : EmailState} (h : QueueInv s) (hs : Step s s') : QueueInv s' := by
  obtain ⟨hflag, hsub, hlen, hlast⟩ := h
  cases hs with
  | enqueue it =>
    refine ⟨hflag, ?_, hlen, hlast⟩
    have := hsub.append (List.Sublist.refl [it])
    simpa [List.append_assoc] using this
  | beginSend it rest hproc hq =>
    have hin : s.inFlight = none := by
      cases hif : s.inFlight with
      | none => rfl
      | some x =>
        have : s.emailProcessing = true := hflag.mpr (by simp [hif])
        rw [hproc] at this
        exact absurd this (by simp)
    refine ⟨by simp, ?_, ?_, ?_⟩
    · have : s.beginLog ++ [it] ++ rest = s.beginLog ++ s.emailQueue := by
        simp [hq, List.append_assoc]
      simpa [this] using hsub
    · simp only
      rw [List.length_append]
      simp only [List.length_singleton]
      rw [hlen, hin]
      simp
    · intro jt hj
      simp only at hj
      cases hj
      simp
  | settle it ok hin =>
    refine ⟨by simp, by simpa using hsub, ?_, ?_⟩
    · simp only
      rw [List.length_append]
      simp only [List.length_singleton]
      rw [hlen, hin] at *
      simp
    · intro jt hj
      simp at hj
  | cancel billId =>
    refine ⟨hflag, ?_, hlen, hlast⟩
    have h1 : (removePendingEmailsForBill billId s.emailQueue).Sublist s.emailQueue :=
      List.filter_sublist _
    exact ((h1.append_left s.beginLog)).trans hsub

theorem queueInv_reachable {s : EmailState} (h : Reachable s) : QueueInv s := by
  induction h with
  | refl => exact queueInv_init
  | tail _ hstep ih => exact queueInv_step ih hstep

theorem inFlight_none_of_idle {s : EmailState}
    (hflag : s.emailProcessing = true ↔ s.inFlight.isSome)
    (hproc : s.emailProcessing = false) : s.inFlight = none := by
  cases hif : s.inFlight with
  | none => rfl
  | some x =>
    have := hflag.mpr (by simp [hif])
    rw [hproc] at this
    simp at this

theorem mem_of_getLast?_eq_some {α : Type} {l : List α} {a : α}
    (h : l.getLast? = some a) : a ∈ l := by
  obtain ⟨hne, heq⟩ := List.mem_getLast?_eq_getLast (by simpa [Option.mem_def] using h)
  rw [heq]
  exact List.getLast_mem hne

theorem filter_filter_of_imp {α : Type} (p q : α → Bool) (h : ∀ a, q a = true → p a = true) :
    ∀ l : List α, (l.filter p).filter q = l.filter q := by
  intro l
  induction l with
  | nil => rfl
  | cons a t ih =>
    by_cases hp : p a = true
    · by_cases hq : q a = true <;> simp [List.filter_cons, hp, hq, ih]
    · have hq : ¬ q a = true := fun hqa => hp (h a hqa)
      simp [List.filter_cons, hp, hq, ih]

/- Sample queue items and states used by the concrete witnesses. -/

/-- A queued email for bill `"bill-a"`. -/
def itA : QueueItem :=
  { bill := some { id := some "bill-a", nestedId := none }, billId := none,
    pdfPath := none, subject := none, message := none, tag := 0 }

/-- A queued email for bill `"bill-b"`. -/
def itB : QueueItem :=
  { bill := some { id := some "bill-b", nestedId := none }, billId := none,
    pdfPath := none, subject := none, message := none, tag := 1 }

/-- State after enqueuing `itA` on the fresh module. -/
def sW1 : EmailState :=
  { emailQueue := [itA], emailProcessing := false, inFlight := none,
    enqLog := [itA], beginLog := [], settled := [] }

/-- State after `processEmailQueue` shifted `itA` and awaits its send. -/
def sW2 : EmailState :=
  { emailQueue := [], emailProcessing := true, inFlight := some itA,
    enqLog := [itA], beginLog := [itA], settled := [] }

theorem reach_sW1 : Reachable sW1 :=
  Relation.ReflTransGen.single (Step.enqueue itA)

theorem reach_sW2 : Reachable sW2 :=
  Relation.ReflTransGen.tail reach_sW1 (Step.beginSend itA [] rfl rfl)

/-- State after additionally enqueuing `itB` behind the in-flight `itA`. -/
def sW3 : EmailState :=
  { emailQueue := [itB], emailProcessing := true, inFlight := some itA,
    enqLog := [itA, itB], beginLog := [itA], settled := [] }

theorem reach_sW3 : Reachable sW3 :=
  Relation.ReflTransGen.tail reach_sW2 (Step.enqueue itB)

/-- C1: the email dispatch queue is single-flight and FIFO — in every reachable
state the sequence of begun send attempts is a subsequence of the enqueue
order (no reordering), at most one begun send is unsettled at any time, and a
step can begin a new send only when every previously begun send has settled. -/
theorem C1_email_queue_fifo_single_flight (s : EmailState) (hs : Reachable s) :
    s.beginLog.Sublist s.enqLog ∧
    s.beginLog.length ≤ s.settled.length + 1 ∧
    (∀ s', Step s s' → s'.beginLog ≠ s.beginLog → s.beginLog.length = s.settled.length) := by
  obtain ⟨hflag, hsub, hlen, hlast⟩ := queueInv_reachable hs
  refine ⟨(List.sublist_append_left _ _).trans hsub, ?_, ?_⟩
  · rw [hlen]
    split <;> omega
  · intro s' hstep hne
    cases hstep with
    | enqueue it => exact absurd rfl hne
    | beginSend it rest hproc hq =>
      have hin := inFlight_none_of_idle hflag hproc
      rw [hlen, hin]
      simp
    | settle it ok hin => exact absurd rfl hne
    | cancel billId => exact absurd rfl hne

/-- Witness for C1 at the concrete reachable state `sW2`. -/
theorem C1_email_queue_fifo_single_flight_witness :
    sW2.beginLog.Sublist sW2.enqLog ∧
    sW2.beginLog.length ≤ sW2.settled.length + 1 ∧
    (∀ s', Step sW2 s' → s'.beginLog ≠ sW2.beginLog →
      sW2.beginLog.length = sW2.settled.length) :=
  C1_email_queue_fifo_single_flight sW2 reach_sW2

/-- C2: `_removePendingEmailsForBill` removes exactly the still-queued items
whose normalized bill id matches, keeps every other bill's items in relative
order, is idempotent and a no-op when nothing matches, and as a step of the
system it leaves the in-flight item and all history untouched. -/
theorem C2_remove_pending_emails_exact (billId : String) (q : List QueueItem) (s : EmailState) :
    itemsFor (some billId) (removePendingEmailsForBill billId q) = [] ∧
    (∀ oid : Option String, oid ≠ some billId →
      itemsFor oid (removePendingEmailsForBill billId q) = itemsFor oid q) ∧
    removePendingEmailsForBill billId (removePendingEmailsForBill billId q) =
      removePendingEmailsForBill billId q ∧
    (itemsFor (some billId) q = [] → removePendingEmailsForBill billId q = q) ∧
    (∃ s', Step s s' ∧ s'.emailQueue = removePendingEmailsForBill billId s.emailQueue ∧
      s'.inFlight = s.inFlight ∧ s'.beginLog = s.beginLog ∧ s'.settled = s.settled) := by
  refine ⟨?_, ?_, ?_, ?_, ?_⟩
  · rw [itemsFor, List.filter_eq_nil_iff]
    intro it hmem
    have h2 := (List.mem_filter.mp hmem).2
    simp only [decide_eq_true_eq] at h2 ⊢
    exact h2
  · intro oid hne
    unfold itemsFor removePendingEmailsForBill
    apply filter_filter_of_imp
    intro a ha
    simp only [decide_eq_true_eq] at ha ⊢
    rw [ha]
    exact fun hcon => hne (hcon ▸ rfl)
  · apply List.filter_eq_self.mpr
    intro a ha
    exact (List.mem_filter.mp ha).2
  · intro hnone
    apply List.filter_eq_self.mpr
    intro a ha
    simp only [decide_eq_true_eq]
    intro hcon
    have : a ∈ itemsFor (some billId) q := by
      rw [itemsFor, List.mem_filter]
      exact ⟨ha, by simp [hcon]⟩
    rw [hnone] at this
    exact absurd this (List.not_mem_nil a)
  · exact ⟨_, Step.cancel billId, rfl, rfl, rfl, rfl⟩

/-- Witness for C2: cancelling bill `"bill-a"` on a concrete queue holding
items for bills a and b, at the concrete state `sW3`. -/
theorem C2_remove_pending_emails_exact_witness :
    itemsFor (some "bill-a") (removePendingEmailsForBill "bill-a" [itA, itB, itA]) = [] ∧
    (∀ oid : Option String, oid ≠ some "bill-a" →
      itemsFor oid (removePendingEmailsForBill "bill-a" [itA, itB, itA]) =
        itemsFor oid [itA, itB, itA]) ∧
    removePendingEmailsForBill "bill-a" (removePendingEmailsForBill "bill-a" [itA, itB, itA]) =
      removePendingEmailsForBill "bill-a" [itA, itB, itA] ∧
    (itemsFor (some "bill-a") [itA, itB, itA] = [] →
      removePendingEmailsForBill "bill-a" [itA, itB, itA] = [itA, itB, itA]) ∧
    (∃ s', Step sW3 s' ∧ s'.emailQueue = removePendingEmailsForBill "bill-a" sW3.emailQueue ∧
      s'.inFlight = sW3.inFlight ∧ s'.beginLog = sW3.beginLog ∧ s'.settled = sW3.settled) :=
  C2_remove_pending_emails_exact "bill-a" [itA, itB, itA] sW3

/-- C7: from any reachable state with a send in flight (and distinct deferred
tags), a failing send settles by rejecting only that item's deferred result,
leaves the queue exactly as it was (the failed item is not re-enqueued), and
the processor can immediately begin the next queued item. -/
theorem C7_send_failure_isolated (s : EmailState) (it : QueueItem) (hs : Reachable s)
    (hin : s.inFlight = some it) (hnodup : (s.enqLog.map QueueItem.tag).Nodup) :
    ∃ s', Step s s' ∧
      s'.settled = s.settled ++ [(it, false)] ∧
      s'.emailQueue = s.emailQueue ∧
      it.tag ∉ s'.emailQueue.map QueueItem.tag ∧
      s'.emailProcessing = false ∧
      (∀ jt jrest, s'.emailQueue = jt :: jrest →
        ∃ s2, Step s' s2 ∧ s2.inFlight = some jt ∧ s2.beginLog = s'.beginLog ++ [jt]) := by
  obtain ⟨hflag, hsub, hlen, hlast⟩ := queueInv_reachable hs
  refine ⟨_, Step.settle it false hin, rfl, rfl, ?_, rfl, ?_⟩
  · have hmem : it ∈ s.beginLog := mem_of_getLast?_eq_some (hlast it hin)
    have hsubtag : ((s.beginLog ++ s.emailQueue).map QueueItem.tag).Sublist
        (s.enqLog.map QueueItem.tag) := hsub.map _
    have hnd : ((s.beginLog ++ s.emailQueue).map QueueItem.tag).Nodup :=
      hnodup.sublist hsubtag
    rw [List.map_append] at hnd
    have hdisj := (List.nodup_append.mp hnd).2.2
    intro hq
    exact hdisj (List.mem_map_of_mem _ hmem) hq
  · intro jt jrest hq
    exact ⟨_, Step.beginSend jt jrest rfl hq, rfl, rfl⟩

/-- Witness for C7 at the concrete state `sW3` (send of `itA` in flight,
`itB` still queued behind it). -/
theorem C7_send_failure_isolated_witness :
    ∃ s', Step sW3 s' ∧
      s'.settled = sW3.settled ++ [(itA, false)] ∧
      s'.emailQueue = sW3.emailQueue ∧
      itA.tag ∉ s'.emailQueue.map QueueItem.tag ∧
      s'.emailProcessing = false ∧
      (∀ jt jrest, s'.emailQueue = jt :: jrest →
        ∃ s2, Step s' s2 ∧ s2.inFlight = some jt ∧ s2.beginLog = s'.beginLog ++ [jt]) :=
  C7_send_failure_isolated sW3 itA reach_sW3 rfl (by decide)

/- ----------------------------------------------------------------
   Bill snapshots and the link builders.
   ---------------------------------------------------------------- -/

/-- A populated bill as read by the link builders, templates and dispatchers:
`_id`, timestamps (epoch milliseconds), the free-form payment status (plus the
legacy `status` field), the optional stored `paymentLink`, the joined tenant /
room fields, the billing month as (monthIndex, year), and the amount. -/
structure BillLite where
  id : String
  updatedAt : Option Nat
  createdAt : Option Nat
  paymentStatus : Option String
  status : Option String
  paymentLink : Option String
  tenantFullName : Option String
  tenantId : Option String
  tenantEmail : Option String
  tenantPhone : Option String
  roomNumber : Option String
  billingMonth : Option (Nat × Nat)
  totalAmount : Option Int
  deriving Repr, DecidableEq

/-- The status string the code inspects: `bill.paymentStatus || bill.status || ""`. -/
def effectiveStatus (b : BillLite) : String :=
  jsOrS b.paymentStatus (jsOrS b.status "")

/-- `(bill.paymentStatus || bill.status || "").toLowerCase() === "paid"`. -/
def isPaidBill (b : BillLite) : Bool :=
  asciiLower (effectiveStatus b) = "paid"

/-- The anchored, case-insensitive test `/^https?:\/\//i.test(s)`. -/
def isHttpLike (s : String) : Bool :=
  strStarts (asciiLower s) "http://" || strStarts (asciiLower s) "https://"

/-- Computed links (payment link possibly `null`). -/
structure BillLinks where
  downloadLink : String
  paymentLink : Option String
  stamp : Nat
  deriving Repr, DecidableEq

/-- `getBillLinks(bill)` of notificationService v1: the stamp is
`bill.updatedAt` or now; the download link targets the backend PDF route; the
payment link is the stored one if it looks like an http(s) URL, else the
public payment page — it is computed for every bill, paid or not. -/
def getBillLinks_v1 (backendBase frontendBase : String) (now : Nat) (b : BillLite) : BillLinks :=
  let stamp := match b.updatedAt with | some t => t | none => now
  let downloadLink := backendBase ++ "/api/bills/" ++ b.id ++ "/pdf?v=" ++ toString stamp
  let paymentLink :=
    match b.paymentLink with
    | some pl =>
      if isHttpLike pl then pl
      else frontendBase ++ "/payment/public/" ++ b.id ++ "?v=" ++ toString stamp
    | none => frontendBase ++ "/payment/public/" ++ b.id ++ "?v=" ++ toString stamp
  { downloadLink := downloadLink, paymentLink := some paymentLink, stamp := stamp }

/-- `defaultLinks(bill, stamp)` of the named `src/utils/notificationTemplete.js`:
the explicit stamp wins when truthy (`0` is falsy), else `updatedAt`, else now;
the payment link is computed for every bill regardless of payment status. -/
def defaultLinks_named (backend frontend : String) (now : Nat) (b : BillLite)
    (stampArg : Option Nat) : BillLinks :=
  let fallbackStamp := match b.updatedAt with | some t => t | none => now
  let s := match stampArg with
    | some t => if t = 0 then fallbackStamp else t
    | none => fallbackStamp
  let downloadLink := backend ++ "/api/bills/" ++ b.id ++ "/pdf?v=" ++ toString s
  let paymentLink :=
    match b.paymentLink with
    | some pl =>
      if isHttpLike pl then pl
      else frontend ++ "/payment/public/" ++ b.id ++ "?v=" ++ toString s
    | none => frontend ++ "/payment/public/" ++ b.id ++ "?v=" ++ toString s
  { downloadLink := downloadLink, paymentLink := some paymentLink, stamp := s }

/-- `getBillLinks(bill)` of notificationService v2: download link on the R2
public base, payment link `null` when the bill is paid. -/
def getBillLinks_v2 (r2PublicUrl frontendBase : String) (now : Nat) (b : BillLite) : BillLinks :=
  let stamp := match b.updatedAt with | some t => t | none => now
  let downloadLink := r2PublicUrl ++ "/bills/bill_" ++ b.id ++ ".pdf?v=" ++ toString stamp
  let paymentLink :=
    if isPaidBill b then none
    else some (frontendBase ++ "/payment/public/" ++ b.id ++ "?v=" ++ toString stamp)
  { downloadLink := downloadLink, paymentLink := paymentLink, stamp := stamp }

/-- Computed links of the Twilio-template revision (payment link is the empty
string when paid; the paid flag is returned alongside). -/
structure BillLinks6 where
  downloadLink : String
  paymentLink : String
  stamp : Nat
  isPaid : Bool
  deriving Repr, DecidableEq

/-- `getBillLinks(bill)` of notificationService v6 (the Twilio-template
revision): like v2 but the paid payment link is `""` and `isPaid` is exposed. -/
def getBillLinks_v6 (r2PublicUrl frontendBase : String) (now : Nat) (b : BillLite) : BillLinks6 :=
  let stamp := match b.updatedAt with | some t => t | none => now
  let downloadLink := r2PublicUrl ++ "/bills/bill_" ++ b.id ++ ".pdf?v=" ++ toString stamp
  let paid := isPaidBill b
  let paymentLink :=
    if paid then ""
    else frontendBase ++ "/payment/public/" ++ b.id ++ "?v=" ++ toString stamp
  { downloadLink := downloadLink, paymentLink := paymentLink, stamp := stamp, isPaid := paid }

/-- A concrete paid bill. -/
def paidBill : BillLite :=
  { id := "b1", updatedAt := some 1700000000000, createdAt := some 1700000000000,
    paymentStatus := some "Paid", status := none, paymentLink := none,
    tenantFullName := some "Asha", tenantId := some "T-1", tenantEmail := some "t@x.com",
    tenantPhone := some "9876543210", roomNumber := some "101",
    billingMonth := some (2, 2024), totalAmount := some 5000 }

/-- C4 counterexample: for the cited link builders — `getBillLinks` of
notificationService v1 and `defaultLinks` of the named template file — a bill
whose `paymentStatus` is `"Paid"` (case-insensitively paid) still gets a
non-null payment link, contradicting the claim at this concrete input. -/
theorem C4_counterexample_paid_bill_payment_link :
    isPaidBill paidBill = true ∧
    (getBillLinks_v1 "http://api" "http://app" 7 paidBill).paymentLink ≠ none ∧
    (defaultLinks_named "http://api" "http://app" 7 paidBill none).paymentLink ≠ none := by
  refine ⟨by decide, ?_, ?_⟩ <;> simp [getBillLinks_v1, defaultLinks_named, paidBill]

/-- C4 (amended): in the v2 and v6 revisions of `getBillLinks` the payment
link is null (resp. empty) exactly on paid bills; in the v1 `getBillLinks`
and the named `defaultLinks` the payment link is always non-null regardless
of payment status; and in every builder the download link does not depend on
`paymentStatus` (given a fixed stamp source). -/
theorem C4_links_payment_status (backend frontend r2 : String) (now : Nat)
    (b : BillLite) (stampArg : Option Nat) :
    (isPaidBill b = true → (getBillLinks_v2 r2 frontend now b).paymentLink = none) ∧
    (isPaidBill b = false → (getBillLinks_v2 r2 frontend now b).paymentLink ≠ none) ∧
    (isPaidBill b = true → (getBillLinks_v6 r2 frontend now b).paymentLink = "") ∧
    (getBillLinks_v1 backend frontend now b).paymentLink ≠ none ∧
    (defaultLinks_named backend frontend now b stampArg).paymentLink ≠ none ∧
    (∀ ps₁ ps₂ : Option String,
      (getBillLinks_v1 backend frontend now { b with paymentStatus := ps₁ }).downloadLink =
        (getBillLinks_v1 backend frontend now { b with paymentStatus := ps₂ }).downloadLink) ∧
    (∀ ps₁ ps₂ : Option String,
      (getBillLinks_v2 r2 frontend now { b with paymentStatus := ps₁ }).downloadLink =
        (getBillLinks_v2 r2 frontend now { b with paymentStatus := ps₂ }).downloadLink) ∧
    (∀ ps₁ ps₂ : Option String,
      (getBillLinks_v6 r2 frontend now { b with paymentStatus := ps₁ }).downloadLink =
        (getBillLinks_v6 r2 frontend now { b with paymentStatus := ps₂ }).downloadLink) ∧
    (∀ ps₁ ps₂ : Option String,
      (defaultLinks_named backend frontend now { b with paymentStatus := ps₁ } stampArg).downloadLink =
        (defaultLinks_named backend frontend now { b with paymentStatus := ps₂ } stampArg).downloadLink) := by
  refine ⟨?_, ?_, ?_, ?_, ?_, ?_, ?_, ?_, ?_⟩
  · intro h
    simp [getBillLinks_v2, h]
  · intro h
    simp [getBillLinks_v2, h]
  · intro h
    simp [getBillLinks_v6, h]
  · cases hpl : b.paymentLink with
    | none => simp [getBillLinks_v1, hpl]
    | some pl =>
      by_cases hweb : isHttpLike pl <;> simp [getBillLinks_v1, hpl, hweb]
  · cases hpl : b.paymentLink with
    | none => simp [defaultLinks_named, hpl]
    | some pl =>
      by_cases hweb : isHttpLike pl <;> simp [defaultLinks_named, hpl, hweb]
  · intro ps₁ ps₂
    rfl
  · intro ps₁ ps₂
    rfl
  · intro ps₁ ps₂
    rfl
  · intro ps₁ ps₂
    rfl

/-- Witness for C4 at a concrete paid bill. -/
theorem C4_links_payment_status_witness :
    (getBillLinks_v2 "http://r2" "http://app" 7 paidBill).paymentLink = none ∧
    (getBillLinks_v6 "http://r2" "http://app" 7 paidBill).paymentLink = "" :=
  ⟨(C4_links_payment_status "http://api" "http://app" "http://r2" 7 paidBill none).1 (by decide),
   (C4_links_payment_status "http://api" "http://app" "http://r2" 7 paidBill none).2.2.1 (by decide)⟩

/- ----------------------------------------------------------------
   The WhatsApp dispatcher (`sendBillWhatsApp`, notificationService v1/v2).
   ---------------------------------------------------------------- -/

/-- The two WhatsApp providers. -/
inductive WAProvider
  | twilio
  | cloud
  deriving Repr, DecidableEq

/-- Which providers are configured: `twilioClient` non-null, and
`waCloudConfigured`. -/
structure WAConfig where
  twilioClient : Bool
  waCloudConfigured : Bool
  deriving Repr, DecidableEq

/-- One provider call: the provider's message result, or a thrown error. -/
abbrev ProviderCall := Except String String

/-- Phone normalization in `sendBillWhatsApp`: trim, then prepend
`DEFAULT_COUNTRY_PREFIX || "+91"` unless the trimmed number starts with `"+"`. -/
def normalizePhone (countryCode : Option String) (raw : String) : String :=
  let t := jsTrim raw
  if strStarts t "+" then t else jsOrS countryCode "+91" ++ t

/-- `sendBillWhatsApp(bill, ...)` of notificationService v1/v2, provider
selection included. `Except.error e` is a rejected promise; `Except.ok none`
is a normal return without a send (tenant phone missing, or the trailing
"No provider configured" path); `Except.ok (some (provider, target, msg))` is
a successful send of `msg` to the normalized `target` via `provider`. -/
def sendBillWhatsApp_v1 (cfg : WAConfig) (countryCode : Option String)
    (twilioSend cloudSend : String → ProviderCall) (b : BillLite) :
    Except String (Option (WAProvider × String × String)) :=
  match b.tenantPhone with
  | none => Except.ok none
  | some rawPhone =>
    if rawPhone = "" then Except.ok none
    else
      let tenantPhone := normalizePhone countryCode rawPhone
      if cfg.twilioClient then
        match twilioSend tenantPhone with
        | Except.ok m => Except.ok (some (WAProvider.twilio, tenantPhone, m))
        | Except.error _ =>
          if cfg.waCloudConfigured then
            match cloudSend tenantPhone with
            | Except.ok m => Except.ok (some (WAProvider.cloud, tenantPhone, m))
            | Except.error e => Except.error e
          else Except.ok none
      else
        if cfg.waCloudConfigured then
          match cloudSend tenantPhone with
          | Except.ok m => Except.ok (some (WAProvider.cloud, tenantPhone, m))
          | Except.error e => Except.error e
        else Except.ok none

/-- An unpaid bill with a bare 10-digit tenant phone. -/
def unpaidBill : BillLite :=
  { id := "b1", updatedAt := some 1700000000000, createdAt := some 1700000000000,
    paymentStatus := some "Not Paid", status := none, paymentLink := none,
    tenantFullName := some "Asha", tenantId := some "T-1", tenantEmail := some "t@x.com",
    tenantPhone := some "9876543210", roomNumber := some "101",
    billingMonth := some (2, 2024), totalAmount := some 5000 }

/-- C6 counterexample: with only the primary (Twilio) configured and failing,
`sendBillWhatsApp` returns normally (`ok none`, after the trailing
"No provider configured" log) — the failure is not surfaced to the caller,
contradicting the claim at this concrete input. -/
theorem C6_counterexample_primary_only_failure_swallowed :
    sendBillWhatsApp_v1 { twilioClient := true, waCloudConfigured := false } none
        (fun _ => Except.error "twilio down") (fun _ => Except.ok "cloud-msg") unpaidBill =
      Except.ok none ∧
    (∀ e, sendBillWhatsApp_v1 { twilioClient := true, waCloudConfigured := false } none
        (fun _ => Except.error "twilio down") (fun _ => Except.ok "cloud-msg") unpaidBill ≠
      Except.error e) := by
  constructor
  · rfl
  · intro e h
    rw [show sendBillWhatsApp_v1 { twilioClient := true, waCloudConfigured := false } none
        (fun _ => Except.error "twilio down") (fun _ => Except.ok "cloud-msg") unpaidBill =
        Except.ok none from rfl] at h
    exact Except.noConfusion h

/-- C6 (amended): provider selection of `sendBillWhatsApp` — the primary
(Twilio) is attempted first and its success returned without consulting the
secondary; on primary failure with the secondary (Cloud API) configured, the
secondary's success is returned without raising and its failure is surfaced;
when only the primary is configured and it fails, the implementation logs and
returns without surfacing the failure; with only the secondary configured its
outcome (success or failure) is returned directly; with neither configured the
call logs and returns without error. -/
theorem C6_whatsapp_provider_selection (countryCode : Option String)
    (tw cl : String → ProviderCall) (b : BillLite) (p : String)
    (hp : b.tenantPhone = some p) (hne : p ≠ "") :
    (∀ cc m, tw (normalizePhone countryCode p) = Except.ok m →
      sendBillWhatsApp_v1 { twilioClient := true, waCloudConfigured := cc } countryCode tw cl b =
        Except.ok (some (WAProvider.twilio, normalizePhone countryCode p, m))) ∧
    (∀ e m, tw (normalizePhone countryCode p) = Except.error e →
      cl (normalizePhone countryCode p) = Except.ok m →
      sendBillWhatsApp_v1 { twilioClient := true, waCloudConfigured := true } countryCode tw cl b =
        Except.ok (some (WAProvider.cloud, normalizePhone countryCode p, m))) ∧
    (∀ e e₂, tw (normalizePhone countryCode p) = Except.error e →
      cl (normalizePhone countryCode p) = Except.error e₂ →
      sendBillWhatsApp_v1 { twilioClient := true, waCloudConfigured := true } countryCode tw cl b =
        Except.error e₂) ∧
    (∀ e, tw (normalizePhone countryCode p) = Except.error e →
      sendBillWhatsApp_v1 { twilioClient := true, waCloudConfigured := false } countryCode tw cl b =
        Except.ok none) ∧
    (∀ m, cl (normalizePhone countryCode p) = Except.ok m →
      sendBillWhatsApp_v1 { twilioClient := false, waCloudConfigured := true } countryCode tw cl b =
        Except.ok (some (WAProvider.cloud, normalizePhone countryCode p, m))) ∧
    (∀ e, cl (normalizePhone countryCode p) = Except.error e →
      sendBillWhatsApp_v1 { twilioClient := false, waCloudConfigured := true } countryCode tw cl b =
        Except.error e) ∧
    (sendBillWhatsApp_v1 { twilioClient := false, waCloudConfigured := false } countryCode tw cl b =
      Except.ok none) := by
  refine ⟨?_, ?_, ?_, ?_, ?_, ?_, ?_⟩
  · intro cc m h
    simp [sendBillWhatsApp_v1, hp, hne, h]
  · intro e m h h₂
    simp [sendBillWhatsApp_v1, hp, hne, h, h₂]
  · intro e e₂ h h₂
    simp [sendBillWhatsApp_v1, hp, hne, h, h₂]
  · intro e h
    simp [sendBillWhatsApp_v1, hp, hne, h]
  · intro m h
    simp [sendBillWhatsApp_v1, hp, hne, h]
  · intro e h
    simp [sendBillWhatsApp_v1, hp, hne, h]
  · simp [sendBillWhatsApp_v1, hp, hne]

/-- Witness for C6: the fallback path at concrete providers — primary fails,
secondary succeeds, the secondary's result is returned without raising. -/
theorem C6_whatsapp_provider_selection_witness :
    sendBillWhatsApp_v1 { twilioClient := true, waCloudConfigured := true } none
        (fun _ => Except.error "twilio down") (fun _ => Except.ok "cloud-msg") unpaidBill =
      Except.ok (some (WAProvider.cloud, "+919876543210", "cloud-msg")) :=
  (C6_whatsapp_provider_selection none (fun _ => Except.error "twilio down")
      (fun _ => Except.ok "cloud-msg") unpaidBill "9876543210" rfl (by decide)).2.1
    "twilio down" "cloud-msg" rfl rfl

/-- C9: phone normalization for WhatsApp dispatch — the raw phone is trimmed;
a trimmed phone starting with "+" is used unchanged; otherwise the configured
default country code (default "+91") is prepended; and the dispatcher targets
exactly the normalized phone. -/
theorem C9_phone_normalization (countryCode : Option String) (raw : String) (b : BillLite)
    (m : String) (cl : String → ProviderCall) (hraw : raw ≠ "") :
    (strStarts (jsTrim raw) "+" = true → normalizePhone countryCode raw = jsTrim raw) ∧
    (strStarts (jsTrim raw) "+" = false →
      normalizePhone countryCode raw = jsOrS countryCode "+91" ++ jsTrim raw) ∧
    normalizePhone none "9876543210" = "+919876543210" ∧
    sendBillWhatsApp_v1 { twilioClient := true, waCloudConfigured := false } countryCode
        (fun _ => Except.ok m) cl { b with tenantPhone := some raw } =
      Except.ok (some (WAProvider.twilio, normalizePhone countryCode raw, m)) := by
  refine ⟨?_, ?_, by decide, ?_⟩
  · intro h
    simp [normalizePhone, h]
  · intro h
    simp [normalizePhone, h]
  · simp [sendBillWhatsApp_v1, hraw]

/-- Witness for C9: the spec's concrete example — "9876543210" with the
default country code is dispatched to "+919876543210". -/
theorem C9_phone_normalization_witness :
    sendBillWhatsApp_v1 { twilioClient := true, waCloudConfigured := false } none
        (fun _ => Except.ok "sid-1") (fun _ => Except.ok "cloud-msg")
        { unpaidBill with tenantPhone := some "9876543210" } =
      Except.ok (some (WAProvider.twilio, normalizePhone none "9876543210", "sid-1")) :=
  (C9_phone_normalization none "9876543210" unpaidBill "sid-1"
      (fun _ => Except.ok "cloud-msg") (by decide)).2.2.2

/- ----------------------------------------------------------------
   The `sendBill` composites.
   ---------------------------------------------------------------- -/

/-- A notification channel dispatch recorded by `sendBill`, in program order. -/
inductive Channel
  | email
  | whatsapp
  deriving Repr, DecidableEq

/-- `sendBill(bill, pdfPath, subject, message)` of notificationService v1:
`await sendBillEmail(...); await sendBillWhatsApp(...)` — both awaited, no
try/catch. Given the eventual settlement of each channel, returns the
channels whose dispatch was reached (in order) and the composite promise's
own settlement. -/
def sendBill_v1 (emailOutcome waOutcome : Except String Unit) :
    List Channel × Except String Unit :=
  match emailOutcome with
  | Except.error e => ([Channel.email], Except.error e)
  | Except.ok _ =>
    match waOutcome with
    | Except.error e => ([Channel.email, Channel.whatsapp], Except.error e)
    | Except.ok _ => ([Channel.email, Channel.whatsapp], Except.ok ())

/-- JS `promise.catch(handler)` / `try { await p } catch (e) { handler }` with
a logging handler: the rejection is absorbed. -/
def jsCatchLog (p : Except String Unit) : Except String Unit :=
  match p with
  | Except.error _ => Except.ok ()
  | Except.ok _ => Except.ok ()

/-- `sendBill` of notificationService v2 (and the Twilio-template revision):
the queued email promise gets `.catch(log)` (fire-and-forget, inside its own
try/catch), and the awaited WhatsApp call sits in try/catch — both channel
dispatches are always reached and both failures are absorbed. -/
def sendBill_v2 (emailOutcome waOutcome : Except String Unit) :
    List Channel × Except String Unit :=
  let emailSettled := jsCatchLog emailOutcome
  let waSettled := jsCatchLog waOutcome
  ([Channel.email, Channel.whatsapp],
    match emailSettled with
    | Except.error e => Except.error e
    | Except.ok _ => waSettled)

/-- C3: contrary to the claim (and to v1's own "both best-effort" comment),
`sendBill` of notificationService v1 propagates an email-channel failure and
skips the WhatsApp dispatch: at the concrete failing input the composite
rejects with the email error and only the email channel was reached. The v2
revision behaves as claimed: for every combination of channel outcomes it
settles successfully and reaches both channels. -/
theorem C3_sendBill_email_failure_propagates_in_v1 :
    sendBill_v1 (Except.error "SMTP send failed") (Except.ok ()) =
      ([Channel.email], Except.error "SMTP send failed") ∧
    Channel.whatsapp ∉ (sendBill_v1 (Except.error "SMTP send failed") (Except.ok ())).1 ∧
    (∀ e w : Except String Unit,
      (sendBill_v2 e w).2 = Except.ok () ∧
      (sendBill_v2 e w).1 = [Channel.email, Channel.whatsapp]) := by
  refine ⟨rfl, by decide, ?_⟩
  intro e w
  cases e <;> cases w <;> exact ⟨rfl, rfl⟩

/- ----------------------------------------------------------------
   PDF materialization (`generateAndUploadPdfToR2` and the updateBill
   fallback, billController.js).
   ---------------------------------------------------------------- -/

/-- `encodeURIComponent` restricted to the characters appearing in PDF keys
(`bills/bill_<hex id>.pdf`): only `/` needs escaping. -/
def encodeURIComponentKey (s : String) : String :=
  String.mk (s.data.flatMap (fun c => if c = '/' then ['%', '2', 'F'] else [c]))

/-- The locator returned by `generateAndUploadPdfToR2`. -/
structure R2Locator where
  key : String
  publicUrl : String
  signedUrl : String
  deriving Repr, DecidableEq

/-- R2 configuration and the outcomes of the external calls made during one
materialization: PDF buffer generation, `PutObjectCommand`, `getSignedUrl`. -/
structure R2Env where
  configured : Bool
  endpointUrl : String
  bucket : String
  pdfGen : Except String Unit
  uploadOutcome : Except String Unit
  signOutcome : Except String String

/-- `generateAndUploadPdfToR2(bill)` (billController.js): generate the buffer,
require R2 configuration, upload under the deterministic key
`bills/bill_<id>.pdf`, sign a 5-minute URL. Every failure is thrown — the
function contains no fallback of any kind. -/
def generateAndUploadPdfToR2 (env : R2Env) (b : BillLite) : Except String R2Locator :=
  match env.pdfGen with
  | Except.error e => Except.error e
  | Except.ok _ =>
    if env.configured = false then Except.error "R2 not configured"
    else
      match env.uploadOutcome with
      | Except.error e => Except.error e
      | Except.ok _ =>
        match env.signOutcome with
        | Except.error e => Except.error e
        | Except.ok su =>
          let key := "bills/bill_" ++ b.id ++ ".pdf"
          let publicUrl := env.endpointUrl ++ "/" ++ env.bucket ++ "/" ++ encodeURIComponentKey key
          Except.ok (R2Locator.mk key publicUrl su)

/-- The identifier `writeBillPdfToDisk` tested by updateBill's fallback guard
`typeof writeBillPdfToDisk === "function"` is declared nowhere in the
repository, so the guard never sees a function. -/
def writeBillPdfToDisk : Option (BillLite → String) := none

/-- Outcome of the updateBill PDF phase: the `pdfPathOrUrl` later handed to
the notification senders, and the HTTP status of the handler's response. -/
structure UpdateBillPdfOutcome where
  pdfPathOrUrl : Option String
  httpStatus : Nat
  deriving Repr, DecidableEq

/-- The PDF phase of `updateBill` (billController.js): try the R2 upload; on
failure, if a disk writer function exists, write locally and use that path;
every error is caught and logged, and the handler then proceeds to
notifications and responds 200. -/
def updateBill_pdfPhase (env : R2Env) (b : BillLite) : UpdateBillPdfOutcome :=
  match generateAndUploadPdfToR2 env b with
  | Except.ok r2 => { pdfPathOrUrl := some r2.publicUrl, httpStatus := 200 }
  | Except.error _ =>
    match writeBillPdfToDisk with
    | some writer => { pdfPathOrUrl := some (writer b), httpStatus := 200 }
    | none => { pdfPathOrUrl := none, httpStatus := 200 }

/- ----------------------------------------------------------------
   Currency formatting (`formatCurrency`, named notificationTemplete.js).
   ---------------------------------------------------------------- -/

/-- A JavaScript value handed to `formatCurrency` (amounts are numbers or
absent; numbers are modelled as rationals). -/
inductive JSNum
  | vnull
  | vundef
  | vnum (q : ℚ)
  deriving DecidableEq

/-- `Number(n || 0)`: `null`, `undefined` and `0` are falsy and coerce to `0`;
every other number passes through. -/
def jsNumberOrZero : JSNum → ℚ
  | JSNum.vnull => 0
  | JSNum.vundef => 0
  | JSNum.vnum q => q

/-- `round(q * 100)` computed on the rational's representation (so that it
evaluates by kernel reduction): `⌊q·100 + 1/2⌋ = (200·num + den) / (2·den)`
with floor division. -/
def cents2 (q : ℚ) : Int := (200 * q.num + (q.den : Int)) / (2 * (q.den : Int))

/-- Sanity: `cents2` is exactly decimal rounding of `q·100`. -/
theorem cents2_eq_round (q : ℚ) : cents2 q = round (q * 100) := by
  have hden : (q.den : ℚ) ≠ 0 := Nat.cast_ne_zero.mpr q.den_nz
  have hq : (q.num : ℚ) = q * q.den := by
    field_simp [Rat.num_div_den q]
  have key : ((200 * q.num + (q.den : Int) : Int) : ℚ) / ((2 * q.den : ℕ) : ℚ) =
      q * 100 + 1 / 2 := by
    field_simp
    rw [hq]
    ring
  rw [round_eq, ← key, Rat.floor_intCast_div_natCast]
  rw [cents2]
  push_cast
  ring_nf

/-- Exactly two decimal digits for a remainder below 100. -/
def pad2 (r : Nat) : String :=
  String.mk [Nat.digitChar (r / 10 % 10), Nat.digitChar (r % 10)]

/-- `num.toFixed(2)`: sign, integer part, dot, two fraction digits. -/
def toFixed2 (q : ℚ) : String :=
  let c := cents2 q
  (if c < 0 then "-" else "") ++ toString (c.natAbs / 100) ++ "." ++ pad2 (c.natAbs % 100)

/-- `formatCurrency(n)` of the named notificationTemplete.js (and of the
template revisions sharing its try/catch): coerce with `Number(n || 0)`, try
the `Intl.NumberFormat("en-IN", ...)` formatter — abstracted as `intl`, with
`none` meaning construction or formatting threw — and on failure fall back to
`` `₹${num.toFixed(2)}` ``. The result type is `String`, not an exception:
every failure is caught. -/
def formatCurrency (intl : ℚ → Option String) (n : JSNum) : String :=
  let num := jsNumberOrZero n
  match intl num with
  | some s => s
  | none => "₹" ++ toFixed2 num

theorem pad2_length (r : Nat) : (pad2 r).length = 2 := rfl

theorem str_append_assoc (a b c : String) : a ++ b ++ c = a ++ (b ++ c) :=
  String.append_assoc a b c

/-- C8: `formatCurrency` is total — `null`, `undefined` and `0` coerce to the
same formatted zero; when the formatter succeeds its output is returned, and
when locale/currency formatting fails the result is exactly the rupee symbol
followed by a fixed 2-decimal rendering (whose fraction part always has two
digits); a very large number under a failing formatter still yields a string. -/
theorem C8_formatCurrency_total (intl : ℚ → Option String) (n : JSNum) :
    (formatCurrency intl JSNum.vnull = formatCurrency intl (JSNum.vnum 0) ∧
     formatCurrency intl JSNum.vundef = formatCurrency intl (JSNum.vnum 0)) ∧
    (∀ s, intl (jsNumberOrZero n) = some s → formatCurrency intl n = s) ∧
    (intl (jsNumberOrZero n) = none →
      formatCurrency intl n = "₹" ++ toFixed2 (jsNumberOrZero n) ∧
      ∃ intPart, formatCurrency intl n =
          "₹" ++ intPart ++ "." ++ pad2 ((cents2 (jsNumberOrZero n)).natAbs % 100) ∧
        (pad2 ((cents2 (jsNumberOrZero n)).natAbs % 100)).length = 2) ∧
    formatCurrency (fun _ => none) (JSNum.vnum 1000000000000000) = "₹1000000000000000.00" := by
  refine ⟨⟨rfl, rfl⟩, ?_, ?_, by decide⟩
  · intro s h
    simp [formatCurrency, h]
  · intro h
    refine ⟨by simp [formatCurrency, h], ?_⟩
    refine ⟨(if cents2 (jsNumberOrZero n) < 0 then "-" else "") ++
      toString ((cents2 (jsNumberOrZero n)).natAbs / 100), ?_, pad2_length _⟩
    simp only [formatCurrency, h, toFixed2]
    simp only [str_append_assoc]

/-- Witness for C8: a failing formatter on a null amount falls back to the
fixed 2-decimal zero. -/
theorem C8_formatCurrency_total_witness :
    formatCurrency (fun _ => none) JSNum.vnull = "₹" ++ toFixed2 (jsNumberOrZero JSNum.vnull) :=
  ((C8_formatCurrency_total (fun _ => none) JSNum.vnull).2.2.1 rfl).1

/-- A concrete environment whose durable-storage upload throws. -/
def r2FailEnv : R2Env :=
  { configured := true, endpointUrl := "https://acc.r2.cloudflarestorage.com",
    bucket := "bills-bucket", pdfGen := Except.ok (),
    uploadOutcome := Except.error "R2 upload failed", signOutcome := Except.ok "signed" }

/-- C5: at the concrete failing input (upload to R2 throws) the lifecycle
operation still completes successfully (HTTP 200, error not raised), but no
local fallback locator is produced — `generateAndUploadPdfToR2` itself throws
with no internal fallback, and updateBill's disk-write branch is dead because
`writeBillPdfToDisk` is defined nowhere. The success of the enclosing
operation holds for every environment. -/
theorem C5_r2_failure_completes_without_local_fallback :
    generateAndUploadPdfToR2 r2FailEnv paidBill = Except.error "R2 upload failed" ∧
    writeBillPdfToDisk = none ∧
    updateBill_pdfPhase r2FailEnv paidBill = { pdfPathOrUrl := none, httpStatus := 200 } ∧
    (∀ env b, (updateBill_pdfPhase env b).httpStatus = 200) := by
  refine ⟨rfl, rfl, rfl, ?_⟩
  intro env b
  rw [updateBill_pdfPhase]
  cases generateAndUploadPdfToR2 env b with
  | ok r2 => rfl
  | error e => rfl

/- ----------------------------------------------------------------
   WhatsApp template variables (Twilio-template revision of
   notificationService / notificationTemplete).
   ---------------------------------------------------------------- -/

/-- Long en-US month name for a 0-based month index
(`toLocaleDateString("en-US", { month: "long" })`). -/
def monthLongName (m : Nat) : String :=
  match m with
  | 0 => "January"
  | 1 => "February"
  | 2 => "March"
  | 3 => "April"
  | 4 => "May"
  | 5 => "June"
  | 6 => "July"
  | 7 => "August"
  | 8 => "September"
  | 9 => "October"
  | 10 => "November"
  | 11 => "December"
  | _ => "Invalid Date"

/-- `formattedMonth(bill)`: "-" when `billingMonth` is missing, otherwise the
en-US long month plus numeric year. -/
def formattedMonth (b : BillLite) : String :=
  match b.billingMonth with
  | none => "-"
  | some (m, y) => monthLongName m ++ " " ++ toString y

/-- `safeRoomNumber(bill)`: `bill?.room?.number || "N/A"`. -/
def safeRoomNumber (b : BillLite) : String :=
  jsOrS b.roomNumber "N/A"

/-- `getActionText(bill)`: "Paid Successfully" when paid; "Updated" when the
update timestamp is more than 2000 ms after creation; else "Generated". -/
def getActionText (b : BillLite) : String :=
  if isPaidBill b then "Paid Successfully"
  else
    match b.createdAt, b.updatedAt with
    | some c, some u => if (u : Int) - (c : Int) > 2000 then "Updated" else "Generated"
    | _, _ => "Generated"

/-- The Twilio `contentVariables` map built by `sendBillWhatsApp` of the
Twilio-template revision: each slot is `String(x || "-")` (slot 6 uses `??`),
so every value is a string and missing fields degrade to "-" / "N/A". -/
def waVariables (r2PublicUrl frontendBase : String) (now : Nat) (b : BillLite) :
    List (String × String) :=
  let links := getBillLinks_v6 r2PublicUrl frontendBase now b
  let billStatus := if links.isPaid then "Status: Paid ✅" else "Status: Not Paid ❌"
  let actionText := getActionText b
  [("1", jsOrS b.tenantFullName "-"),
   ("2", if formattedMonth b = "" then "-" else formattedMonth b),
   ("3", if actionText = "" then "-" else actionText),
   ("4", jsOrS b.tenantId "-"),
   ("5", if safeRoomNumber b = "" then "-" else safeRoomNumber b),
   ("6", match b.totalAmount with | some a => toString a | none => "-"),
   ("7", if billStatus = "" then "-" else billStatus),
   ("8", if links.isPaid then "-" else (if links.paymentLink = "" then "-" else links.paymentLink)),
   ("9", if links.downloadLink = "" then "-" else links.downloadLink)]

theorem payment_page_link_ne_dash (fb idStr stampStr : String) :
    (fb ++ "/payment/public/" ++ idStr ++ "?v=" ++ stampStr) ≠ "-" ∧
    (fb ++ "/payment/public/" ++ idStr ++ "?v=" ++ stampStr) ≠ "" := by
  have h16 : ("/payment/public/" : String).length = 16 := rfl
  have h3 : ("?v=" : String).length = 3 := rfl
  have h1 : ("-" : String).length = 1 := rfl
  have h0 : ("" : String).length = 0 := rfl
  constructor <;> intro h <;> have hl := congrArg String.length h <;>
    rw [String.length_append, String.length_append, String.length_append,
      String.length_append, h16, h3] at hl
  · rw [h1] at hl
    omega
  · rw [h0] at hl
    omega

/-- C10: the Twilio content-variable map has exactly the keys "1"–"9" (each
value a `String` by construction, with missing fields degrading to "-" or
"N/A"), and slot "8" is "-" exactly when the bill's payment status reads
"paid" case-insensitively. -/
theorem C10_wa_template_variables (r2PublicUrl frontendBase : String) (now : Nat)
    (b : BillLite) (hps : strTruthy b.paymentStatus = true) :
    (waVariables r2PublicUrl frontendBase now b).map Prod.fst =
      ["1", "2", "3", "4", "5", "6", "7", "8", "9"] ∧
    ((waVariables r2PublicUrl frontendBase now b).lookup "8" = some "-" ↔
      isPaidBill b = true) ∧
    ((waVariables r2PublicUrl frontendBase now b).lookup "8" = some "-" ↔
      asciiLower (jsOrS b.paymentStatus "") = "paid") ∧
    (b.tenantFullName = none →
      (waVariables r2PublicUrl frontendBase now b).lookup "1" = some "-") ∧
    (b.roomNumber = none →
      (waVariables r2PublicUrl frontendBase now b).lookup "5" = some "N/A") ∧
    (b.totalAmount = none →
      (waVariables r2PublicUrl frontendBase now b).lookup "6" = some "-") := by
  have hpaid : (getBillLinks_v6 r2PublicUrl frontendBase now b).isPaid = isPaidBill b := rfl
  have h8 : (waVariables r2PublicUrl frontendBase now b).lookup "8" =
      some (if (getBillLinks_v6 r2PublicUrl frontendBase now b).isPaid then "-"
        else (if (getBillLinks_v6 r2PublicUrl frontendBase now b).paymentLink = "" then "-"
          else (getBillLinks_v6 r2PublicUrl frontendBase now b).paymentLink)) := by
    simp [waVariables, List.lookup]
  have key8 : (waVariables r2PublicUrl frontendBase now b).lookup "8" = some "-" ↔
      isPaidBill b = true := by
    rw [h8, hpaid]
    by_cases hp : isPaidBill b = true
    · simp [hp]
    · have hb : isPaidBill b = false := by
        cases hv : isPaidBill b
        · rfl
        · exact absurd hv hp
      have hlink : (getBillLinks_v6 r2PublicUrl frontendBase now b).paymentLink =
          frontendBase ++ "/payment/public/" ++ b.id ++ "?v=" ++
            toString (match b.updatedAt with | some t => t | none => now) := by
        simp [getBillLinks_v6, hb]
      obtain ⟨hnd, hne⟩ := payment_page_link_ne_dash frontendBase b.id
        (toString (match b.updatedAt with | some t => t | none => now))
      rw [hb, hlink]
      simp [hne, hnd]
  refine ⟨rfl, key8, ?_, ?_, ?_, ?_⟩
  · obtain ⟨ps, hpsome⟩ : ∃ ps, b.paymentStatus = some ps := by
      cases hb : b.paymentStatus with
      | none =>
        rw [hb] at hps
        simp [strTruthy] at hps
      | some s => exact ⟨s, rfl⟩
    have hne : ps ≠ "" := by
      rw [hpsome] at hps
      simpa [strTruthy] using hps
    have he : effectiveStatus b = ps := by
      simp [effectiveStatus, jsOrS, hpsome, hne]
    have he2 : jsOrS b.paymentStatus "" = ps := by
      simp [jsOrS, hpsome, hne]
    rw [key8, he2]
    simp [isPaidBill, he]
  · intro h
    simp [waVariables, List.lookup, jsOrS, h]
  · intro h
    simp [waVariables, List.lookup, safeRoomNumber, jsOrS, h]
  · intro h
    simp [waVariables, List.lookup, h]

/-- Witness for C10 at a concrete paid bill (`paymentStatus = "Paid"`). -/
theorem C10_wa_template_variables_witness :
    (waVariables "http://r2" "http://app" 7 paidBill).map Prod.fst =
      ["1", "2", "3", "4", "5", "6", "7", "8", "9"] ∧
    ((waVariables "http://r2" "http://app" 7 paidBill).lookup "8" = some "-" ↔
      isPaidBill paidBill = true) ∧
    ((waVariables "http://r2" "http://app" 7 paidBill).lookup "8" = some "-" ↔
      asciiLower (jsOrS paidBill.paymentStatus "") = "paid") ∧
    (paidBill.tenantFullName = none →
      (waVariables "http://r2" "http://app" 7 paidBill).lookup "1" = some "-") ∧
    (paidBill.roomNumber = none →
      (waVariables "http://r2" "http://app" 7 paidBill).lookup "5" = some "N/A") ∧
    (paidBill.totalAmount = none →
      (waVariables "http://r2" "http://app" 7 paidBill).lookup "6" = some "-") :=
  C10_wa_template_variables "http://r2" "http://app" 7 paidBill (by decide)

end RentalNotify
